import Mathlib

/-!
# Verification of the TrumpTrader pipeline

Shallow embedding of the repository's core logic:

* `chrome_scrapper.py` — dedup store (`load_seen_tweets` / `save_seen_tweets`)
  and the monitoring-loop cycle of `main`;
* `schwab.py` — quote fetching (`get_quote`), sizing and order placement
  (`place_dollar_amount_order`, `place_order_internal`), and the trade entry
  points (`execute_schwab_trade`, `execute_sell_trade`);
* `repository.py` — the LLM response parser (`_parse_llm_json_response`),
  subject whitelisting in `analyze_tweet_sentiment`, and the decision policy
  (`analyze_tweet_reasoning`);
* `service.py` — the per-item orchestration of `main`.

Python floats are modelled by `ℚ`, machine exceptions by `Except`/`Option`,
external calls (HTTP transport, the JSON library, the LLM) by explicit
parameters.  Interpolated log/explanation strings are abridged to fixed
message texts; only their non-emptiness is load-bearing.
-/

namespace TrumpTrader

/-! ## Python string primitives

The Python `str` operations used by the repository, embedded over the
character list of a Lean `String` (Python string indexing and slicing count
code points, as `List Char` does).  Unicode-only behaviour — non-ASCII
upper-casing, exotic whitespace and digit classes — is outside the model. -/

/-- Python `str.upper` (ASCII): upper-case every character. -/
def pyUpper (s : String) : String :=
  String.mk (s.data.map Char.toUpper)

/-- Python `str.strip` with no argument: drop leading and trailing
whitespace. -/
def pyStrip (s : String) : String :=
  String.mk (((s.data.dropWhile Char.isWhitespace).reverse.dropWhile
    Char.isWhitespace).reverse)

/-- Helper for `pySplit`: split a character list at every separator
occurrence; the result is never empty. -/
def splitCharList (sep : Char) : List Char → List (List Char)
  | [] => [[]]
  | c :: cs =>
    match splitCharList sep cs with
    | [] => [[]]
    | g :: gs => if c = sep then [] :: g :: gs else (c :: g) :: gs

/-- Python `str.split` with a one-character separator. -/
def pySplit (s : String) (sep : Char) : List String :=
  (splitCharList sep s.data).map String.mk

/-- Python `str.startswith`. -/
def pyStartsWith (s pre : String) : Bool :=
  pre.data.isPrefixOf s.data

/-- Python `str.endswith`. -/
def pyEndsWith (s suf : String) : Bool :=
  suf.data.isSuffixOf s.data

/-- Python slice `s[n:]`. -/
def pyDrop (s : String) (n : Nat) : String :=
  String.mk (s.data.drop n)

/-- Python slice `s[:-n]` (only used after an `endswith` guard, so `n` never
exceeds the length). -/
def pyDropRight (s : String) (n : Nat) : String :=
  String.mk ((s.data.reverse.drop n).reverse)

/-! ## Dedup store (`chrome_scrapper.py`, lines 259-290)

`save_seen_tweets` serializes `list(tweets_set)` as a JSON array, opening the
file in mode `w` (full overwrite); `load_seen_tweets` reads the array back and
returns `set(data)`, and returns the empty set when the file is missing or
unreadable.  The file content is modelled as `Option (List String)`: `none` is
a missing or corrupt file, `some l` a JSON array of strings. -/

/-- Embedding of `save_seen_tweets`: the list written to the file is
`list(tweets_set)`, an enumeration of the set (Python enumerates in hash
order; the model picks the sorted enumeration as the representative — the
spec declares the order irrelevant); the previous file content is discarded
(mode `w`), so the result depends on the set alone. -/
def save_seen_tweets (tweets_set : Finset String) : List String :=
  tweets_set.sort (· ≤ ·)

/-- Embedding of `load_seen_tweets`: a missing or corrupt file yields the
empty set, otherwise `set(data)`. -/
def load_seen_tweets (fileContent : Option (List String)) : Finset String :=
  match fileContent with
  | none => ∅
  | some data => data.toFinset

/-! ## Broker response resolution (`schwab.py`, `place_order_internal`,
lines 137-163)

The response of `client.order_place` is modelled by `Option BrokerResponse`:
`none` is a transport error or exception during submission, `some r` a
received HTTP response where `r.statusOk` says whether `raise_for_status`
passed and `r.location` is `resp.headers.get('location')`. -/

/-- An HTTP response from the broker, as observed by `place_order_internal`. -/
structure BrokerResponse where
  statusOk : Bool
  location : Option String
  deriving DecidableEq, Repr

/-- Python `str.isdigit` restricted to ASCII: true iff the string is non-empty
and every character is a decimal digit. -/
def pyIsdigit (s : String) : Bool :=
  !s.data.isEmpty && s.data.all Char.isDigit

/-- The final path segment of a location-style header:
`location_header.split('/')[-1]` (Python `split` never returns an empty
list, so `[-1]` never fails; the default is unreachable). -/
def lastPathSegment (h : String) : String :=
  (pySplit h '/').getLastD ""

/-- Embedding of the order-id extraction in `place_order_internal`:
`location_header.split('/')[-1]` kept only when `order_id.isdigit()`; a
missing or empty (falsy) header yields no id. -/
def extractOrderId (location : Option String) : Option String :=
  match location with
  | none => none
  | some h =>
    if h = "" then none
    else
      let oid := lastPathSegment h
      if pyIsdigit oid then some oid else none

/-- The Execution Engine terminal states named by the specification. -/
inductive OrderState where
  | Confirmed
  | Unconfirmed
  | Failed
  deriving DecidableEq, Repr

/-- Embedding of the response handling of `place_order_internal` (after the
quantity guard): an absent response (transport error) or a failing
`raise_for_status` raises, otherwise the function returns the extracted order
id (possibly `None`). -/
def placeOrderInternalResult (resp : Option BrokerResponse) :
    Except String (Option String) :=
  match resp with
  | none => Except.error "transport error or exception during submission"
  | some r =>
    if r.statusOk then Except.ok (extractOrderId r.location)
    else Except.error "raise_for_status: non-success status code"

/-- The specification's reading of an outcome of `place_order_internal` as a
state-machine terminal state: a raised exception is `Failed`, a returned
numeric id is `Confirmed`, a success without id is `Unconfirmed`. -/
def resolveOrderState (outcome : Except String (Option String)) :
    OrderState × Option String :=
  match outcome with
  | Except.error _ => (OrderState.Failed, none)
  | Except.ok none => (OrderState.Unconfirmed, none)
  | Except.ok (some oid) => (OrderState.Confirmed, some oid)

/-! ## Scraper cycle and service orchestration
(`chrome_scrapper.py` `main`, lines 380-423; `service.py` `main`, lines 76-162)

One polling cycle of the monitoring loop in `chrome_scrapper.main` scrapes a
tweet, tests it against the in-memory seen set, and — when it is new — prints
it to stdout (emitting it to the service), adds its fingerprint to the set,
rewrites `seen_tweets.json`, and returns the text.  `service.main` then runs
the tariff-firmness classifier, possibly submits an order through
`schwab.execute_schwab_trade` / `schwab.execute_sell_trade`, and sends the
Pushover notification.  The cycle is modelled as an ordered event trace. -/

/-- The observable pipeline events of one cycle, in program order. -/
inductive PipelineEvent where
  | scrape
  | emit
  | commitStore
  | classify
  | engineCall
  | notify
  deriving DecidableEq, Repr

/-- Embedding of the loop body of `chrome_scrapper.main` (lines 380-423) for
one cycle: `is_new = current_tweet_text and current_tweet_text not in
seen_tweets`; a new tweet is emitted to stdout, added to the set, the file is
saved, and the text is returned.  Result: (event trace, returned tweet text,
updated seen set). -/
def scraperCycle (seen_tweets : Finset String) (current_tweet_text : Option String) :
    List PipelineEvent × Option String × Finset String :=
  match current_tweet_text with
  | none => ([PipelineEvent.scrape], none, seen_tweets)
  | some t =>
    if t ≠ "" ∧ t ∉ seen_tweets then
      ([PipelineEvent.scrape, PipelineEvent.emit, PipelineEvent.commitStore],
       some t, insert t seen_tweets)
    else
      ([PipelineEvent.scrape], none, seen_tweets)

/-- Embedding of the action selection in `service.main` (lines 87-92) from the
firmness direction string. -/
def serviceAction (firmness_direction : String) : String :=
  if firmness_direction = "More Firm" then "SELL"
  else if firmness_direction = "Less Firm" then "BUY"
  else "N/A"

/-- Embedding of the downstream part of `service.main` (lines 76-162): with no
tweet text the function returns early; otherwise it calls the firmness
classifier, submits an order when Schwab is initialized and the action is
actionable (both the BUY branch, line 132, and the SELL branch, line 149, call
into the execution engine), and sends the notification. -/
def serviceEvents (tweet_text : Option String) (firmness_direction : String)
    (schwabReady : Bool) : List PipelineEvent :=
  match tweet_text with
  | none => []
  | some _ =>
    let action := serviceAction firmness_direction
    [PipelineEvent.classify]
      ++ (if schwabReady ∧ action ≠ "N/A" then [PipelineEvent.engineCall] else [])
      ++ [PipelineEvent.notify]

/-- One full pipeline cycle: the scraper cycle followed by the service's
processing of the returned tweet text. -/
def fullCycleEvents (seen_tweets : Finset String) (current_tweet_text : Option String)
    (firmness_direction : String) (schwabReady : Bool) : List PipelineEvent :=
  (scraperCycle seen_tweets current_tweet_text).1
    ++ serviceEvents (scraperCycle seen_tweets current_tweet_text).2.1
        firmness_direction schwabReady

/-! ## Quote fetching and order sizing (`schwab.py`, lines 52-109)

`get_quote` resolves a price from the quote details: the ask price unless it
is Python-falsy (`None` or `0`), else the last price; it returns the price
only when it is truthy and positive, otherwise it raises.  Prices and dollar
amounts are modelled by `ℚ`, an absent JSON field by `none`. -/

/-- The price fallback of `get_quote` (lines 65-68): `price = askPrice;
if not price or price == 0: price = lastPrice` — the ask price is kept
whenever it is truthy (present and non-zero), even when negative. -/
def resolvePrice (askPrice lastPrice : Option ℚ) : Option ℚ :=
  match askPrice with
  | none => lastPrice
  | some a => if a = 0 then lastPrice else some a

/-- Embedding of `get_quote` (lines 52-80): the resolved price is returned
only when it is truthy and positive (`if price and price > 0`), otherwise the
function raises `ValueError`. -/
def get_quote (askPrice lastPrice : Option ℚ) : Except String ℚ :=
  match resolvePrice askPrice lastPrice with
  | some p =>
    if 0 < p then Except.ok p
    else Except.error "Could not retrieve a valid price (ask or last)"
  | none => Except.error "Could not retrieve a valid price (ask or last)"

/-- One leg of the market order constructed by `place_order_internal`
(lines 120-135): instruction uppercased, integer quantity, symbol uppercased,
order type MARKET / duration DAY fixed. -/
structure OrderLeg where
  instruction : String
  quantity : ℤ
  symbol : String
  deriving DecidableEq, Repr

/-- The order that `place_order_internal` actually sends to
`client.order_place` (lines 112-140): `none` when the quantity guard raises
before any submission, otherwise the constructed order leg.  (The response
handling afterwards is `placeOrderInternalResult`.) -/
def placeOrderInternalSubmits (symbol : String) (quantity : ℤ)
    (order_instruction : String) : Option OrderLeg :=
  if quantity ≤ 0 then none
  else some ⟨pyUpper order_instruction, quantity, pyUpper symbol⟩

/-- The value `place_order_internal` returns to its caller, given the broker
response: the quantity guard (line 114) raises for non-positive quantity,
then transport errors and non-success statuses raise, and a success returns
the extracted order id. -/
def place_order_internal (quantity : ℤ) (resp : Option BrokerResponse) :
    Except String (Option String) :=
  if quantity ≤ 0 then
    Except.error "Quantity must be positive to place order."
  else
    placeOrderInternalResult resp

/-- Embedding of `place_dollar_amount_order` (lines 83-109): rejects a
non-positive dollar amount, fetches a fresh quote, computes
`calculated_quantity = math.floor(dollar_amount / current_price)`, rejects a
non-positive quantity before placing any order, and otherwise returns the
order id from `place_order_internal` together with the calculated quantity. -/
def place_dollar_amount_order (askPrice lastPrice : Option ℚ) (dollar_amount : ℚ)
    (resp : Option BrokerResponse) : Except String (Option String × ℤ) :=
  if dollar_amount ≤ 0 then Except.error "Dollar amount must be positive."
  else
    match get_quote askPrice lastPrice with
    | Except.error e => Except.error e
    | Except.ok current_price =>
      let calculated_quantity : ℤ := ⌊dollar_amount / current_price⌋
      if calculated_quantity ≤ 0 then
        Except.error "Calculated quantity is zero or less. Order not placed."
      else
        match place_order_internal calculated_quantity resp with
        | Except.error e => Except.error e
        | Except.ok order_id => Except.ok (order_id, calculated_quantity)

/-- The order leg that a `place_dollar_amount_order` call submits through
`place_order_internal`, if any: the non-positive-amount and non-positive-
quantity guards raise before any submission. -/
def placeDollarAmountOrderSubmits (askPrice lastPrice : Option ℚ)
    (dollar_amount : ℚ) (symbol order_instruction : String) : Option OrderLeg :=
  if dollar_amount ≤ 0 then none
  else
    match get_quote askPrice lastPrice with
    | Except.error _ => none
    | Except.ok current_price =>
      let calculated_quantity : ℤ := ⌊dollar_amount / current_price⌋
      if calculated_quantity ≤ 0 then none
      else placeOrderInternalSubmits symbol calculated_quantity order_instruction

/-! ## Trade entry points (`schwab.py`, lines 183-260) -/

/-- Embedding of `execute_schwab_trade` (lines 183-221): only the BUY
instruction is supported (anything else raises `NotImplementedError`, caught
below); every caught exception — invalid price, zero quantity, broker error,
unsupported instruction — yields `(None, 0)`; a non-raising run returns the
order id and the calculated quantity. -/
def execute_schwab_trade (askPrice lastPrice : Option ℚ) (dollar_amount : ℚ)
    (order_instruction : String) (resp : Option BrokerResponse) :
    Option String × ℤ :=
  if pyUpper order_instruction = "BUY" then
    match place_dollar_amount_order askPrice lastPrice dollar_amount resp with
    | Except.error _ => (none, 0)
    | Except.ok (order_id, calculated_quantity) => (order_id, calculated_quantity)
  else (none, 0)

/-- Embedding of `execute_sell_trade` (lines 224-260): the parameter named
`dollar_amount` is divided by a freshly fetched price
(`calculated_quantity = math.floor(dollar_amount / current_price)`, computed
outside the `try` block, so a quote failure propagates), and the result is
submitted with instruction `"SELL_SHORT"`; exceptions inside the `try` are
caught and resolved to `None`. -/
def execute_sell_trade (askPrice lastPrice : Option ℚ) (dollar_amount : ℚ)
    (resp : Option BrokerResponse) : Except String (Option String) :=
  match get_quote askPrice lastPrice with
  | Except.error e => Except.error e
  | Except.ok current_price =>
    let calculated_quantity : ℤ := ⌊dollar_amount / current_price⌋
    match place_order_internal calculated_quantity resp with
    | Except.error _ => Except.ok none
    | Except.ok order_id => Except.ok order_id

/-- The order leg that an `execute_sell_trade` call submits through
`place_order_internal`, if any. -/
def executeSellTradeSubmits (askPrice lastPrice : Option ℚ) (dollar_amount : ℚ)
    (symbol : String) : Option OrderLeg :=
  match get_quote askPrice lastPrice with
  | Except.error _ => none
  | Except.ok current_price =>
    placeOrderInternalSubmits symbol ⌊dollar_amount / current_price⌋ "SELL_SHORT"

/-! ## LLM response parsing (`repository.py`, `_parse_llm_json_response`,
lines 139-178)

`json.loads` is external library code and is modelled by an explicit
parameter `jsonLoads : String → Option α` (`none` = `JSONDecodeError`). -/

/-- Embedding of the markdown-fence stripping in `_parse_llm_json_response`
(lines 153-165): strip whitespace, remove a leading ```json or ``` fence and
— on the already-truncated text — a trailing ``` fence, then strip again. -/
def stripMarkdownFences (response_text : String) : String :=
  let s := pyStrip response_text
  let s :=
    if pyStartsWith s "```json" then
      let s := pyDrop s 7
      if pyEndsWith s "```" then pyDropRight s 3 else s
    else if pyStartsWith s "```" then
      let s := pyDrop s 3
      if pyEndsWith s "```" then pyDropRight s 3 else s
    else s
  pyStrip s

/-- Embedding of `_parse_llm_json_response` (lines 139-178): `None` input is
rejected; a direct parse is attempted first; on `JSONDecodeError` the fences
are stripped and, when the stripped text is non-empty, a second parse is
attempted; every failure path returns `None` instead of raising. -/
def parse_llm_json_response {α : Type} (jsonLoads : String → Option α)
    (response_text : Option String) : Option α :=
  match response_text with
  | none => none
  | some text =>
    match jsonLoads text with
    | some parsed => some parsed
    | none =>
      let response_stripped := stripMarkdownFences text
      if response_stripped = "" then none
      else jsonLoads response_stripped

/-! ## Subject whitelisting (`repository.py`, `analyze_tweet_sentiment`,
lines 212-223) -/

/-- The parsed classifier response of `analyze_tweet_sentiment`; a field is
`none` when the corresponding key is absent from the JSON object. -/
structure ParsedSentiment where
  country_reference : Option String
  tariff_sentiment_change : Option String
  reasoning : Option String
  deriving DecidableEq, Repr

/-- Embedding of the country-reference validation at the end of
`analyze_tweet_sentiment` (lines 217-223): when the parse produced a dict
holding a `country_reference` that is neither the `N/A` sentinel nor a member
of the configured whitelist, that field is overwritten with `N/A`; the
response is returned otherwise unchanged. -/
def validateCountryReference (valid_countries : Finset String)
    (parsed_response : Option ParsedSentiment) : Option ParsedSentiment :=
  match parsed_response with
  | none => none
  | some p =>
    match p.country_reference with
    | none => some p
    | some country =>
      if country ≠ "N/A" ∧ country ∉ valid_countries then
        some { p with country_reference := some "N/A" }
      else some p

/-! ## Decision policy (`repository.py`, `analyze_tweet_reasoning`,
lines 225-282)

The mapping table `ticker_effected_mapping.json` maps a country name to
either a JSON object with optional `ticker` and `action` keys or the literal
string `"placeholder"` (not yet configured; the Python substring tests
`'ticker' not in mapping_entry` and `'action' not in mapping_entry` are both
true for it, so it falls into the incomplete-entry branch).  Interpolated
explanation strings are abridged to fixed texts. -/

/-- A value of the decision-policy mapping table. -/
inductive TableValue where
  | placeholder
  | entry (ticker : Option String) (action : Option String)
  deriving DecidableEq, Repr

/-- A sentiment-analysis input to `analyze_tweet_reasoning` that passes the
required-keys validation (lines 228-234); inputs failing that validation
return `None` before the policy logic runs and are not modelled. -/
structure SentimentInput where
  country_reference : String
  tariff_sentiment_change : String
  reasoning : String
  deriving DecidableEq, Repr

/-- The result dict of `analyze_tweet_reasoning`. -/
structure ReasoningResult where
  ticker : String
  action : String
  confidence : String
  explanation : String
  deriving DecidableEq, Repr

/-- Embedding of the policy logic of `analyze_tweet_reasoning`
(lines 236-282): a sentiment of Unclear or Unchanged, an `N/A` country, or a
country absent from the mapping yields the non-actionable `N/A` result; an
incomplete mapping entry (missing `ticker` or `action` key, or the
`placeholder` literal) also yields an `N/A` result; otherwise the table entry
is returned with default confidence `Medium`. -/
def analyze_tweet_reasoning (ticker_mapping : List (String × TableValue))
    (s : SentimentInput) : ReasoningResult :=
  let country := s.country_reference
  let sentiment := s.tariff_sentiment_change
  if sentiment = "Unclear" ∨ sentiment = "Unchanged" ∨ country = "N/A"
      ∨ (ticker_mapping.lookup country).isNone then
    { ticker := "N/A", action := "N/A", confidence := "N/A",
      explanation :=
        if country ≠ "N/A" ∧ (ticker_mapping.lookup country).isNone then
          "Country not found in ticker mapping."
        else
          "Sentiment analysis was unclear, unchanged, or country was N/A or invalid." }
  else
    match ticker_mapping.lookup country with
    | some (TableValue.entry (some ticker) (some action)) =>
      { ticker := ticker, action := action, confidence := "Medium",
        explanation :=
          "Based on the tariff sentiment for the country, mapped ticker and action from the table." }
    | _ =>
      { ticker := "N/A", action := "N/A", confidence := "N/A",
        explanation := "Invalid or incomplete mapping found for country." }

/-- The direction enumeration of the specification's Signal data type. -/
inductive Direction where
  | Increased
  | Decreased
  | Unchanged
  | Unclear
  deriving DecidableEq, Repr

/-- The string carried in the `tariff_sentiment_change` field for each
direction of the Signal enumeration. -/
def Direction.toSentimentString : Direction → String
  | Direction.Increased => "Increased"
  | Direction.Decreased => "Decreased"
  | Direction.Unchanged => "Unchanged"
  | Direction.Unclear => "Unclear"

/-! ## Theorems -/

/-- C9: For every finite set `S` of fingerprint strings, loading the dedup
persistence file immediately after saving `S` to it returns exactly the set
`S`; the file is written as a full overwrite (the saved list is a function of
`S` alone, independent of any prior file content). -/
theorem dedup_save_load_roundtrip (S : Finset String) :
    load_seen_tweets (some (save_seen_tweets S)) = S := by
  simp [load_seen_tweets, save_seen_tweets]

/-- C3: For every order submission, a success response whose location header
has a non-empty all-digits final path segment resolves to `Confirmed` with
that segment as the identifier; a success response with a missing, empty, or
non-numeric-tailed header resolves to `Unconfirmed` with no identifier; a
non-success status, and a transport error or exception (absent response),
resolve to `Failed` with no identifier. -/
theorem order_submission_state_machine (r : BrokerResponse) (h tok : String) :
    (r.statusOk = true → r.location = some h → h ≠ "" →
      pyIsdigit (lastPathSegment h) = true → lastPathSegment h = tok →
      resolveOrderState (placeOrderInternalResult (some r))
        = (OrderState.Confirmed, some tok)) ∧
    (r.statusOk = true →
      (r.location = none ∨
        (r.location = some h ∧ (h = "" ∨ pyIsdigit (lastPathSegment h) = false))) →
      resolveOrderState (placeOrderInternalResult (some r))
        = (OrderState.Unconfirmed, none)) ∧
    (r.statusOk = false →
      resolveOrderState (placeOrderInternalResult (some r))
        = (OrderState.Failed, none)) ∧
    resolveOrderState (placeOrderInternalResult none)
      = (OrderState.Failed, none) := by
  refine ⟨?_, ?_, ?_, rfl⟩
  · intro hok hloc hne hdig htok
    rw [htok] at hdig
    simp [placeOrderInternalResult, hok, extractOrderId, hloc, hne, hdig, htok,
      resolveOrderState]
  · intro hok hcases
    rcases hcases with hnone | ⟨hloc, hbad⟩
    · simp [placeOrderInternalResult, hok, extractOrderId, hnone, resolveOrderState]
    · rcases hbad with hemp | hdig
      · simp [placeOrderInternalResult, hok, extractOrderId, hloc, hemp,
          resolveOrderState]
      · by_cases hemp : h = ""
        · simp [placeOrderInternalResult, hok, extractOrderId, hloc, hemp,
            resolveOrderState]
        · simp [placeOrderInternalResult, hok, extractOrderId, hloc, hemp, hdig,
            resolveOrderState]
  · intro hbad
    simp [placeOrderInternalResult, hbad, resolveOrderState]

/-- C3 witness: a success response whose location header ends in `/98765`
resolves to `Confirmed` with identifier `98765`. -/
theorem order_submission_state_machine_witness :
    resolveOrderState (placeOrderInternalResult (some
        ⟨true, some "https://api.schwabapi.com/trader/v1/accounts/ABC/orders/98765"⟩))
      = (OrderState.Confirmed, some "98765") :=
  (order_submission_state_machine
      ⟨true, some "https://api.schwabapi.com/trader/v1/accounts/ABC/orders/98765"⟩
      "https://api.schwabapi.com/trader/v1/accounts/ABC/orders/98765"
      "98765").1
    rfl rfl (by decide) (by decide) (by decide)

/-- C4 (code evaluation): `execute_sell_trade`, handed the caller-supplied
quantity 10 (for example the quantity calculated during a prior Buy) with the
fetched price at 2, submits an order of quantity `floor(10 / 2) = 5` with
instruction `SELL_SHORT` — not an order of exactly quantity 10 with a `SELL`
instruction, as its docstring and the unit tests in `test_schwab.py`
expect. -/
theorem sell_trade_requantifies_caller_quantity :
    executeSellTradeSubmits (some 2) none 10 "MSFT"
      = some ⟨"SELL_SHORT", 5, "MSFT"⟩
    ∧ (5 : ℤ) ≠ 10 ∧ "SELL_SHORT" ≠ "SELL" := by
  have h5 : ⌊(10 : ℚ) / 2⌋ = 5 := by
    rw [Int.floor_eq_iff]
    norm_num
  have heval : executeSellTradeSubmits (some 2) none 10 "MSFT"
      = some ⟨"SELL_SHORT", 5, "MSFT"⟩ := by
    norm_num [executeSellTradeSubmits, get_quote, resolvePrice,
      placeOrderInternalSubmits, h5]
    decide
  exact ⟨heval, by decide, by decide⟩

/-- Helper: a non-error result of `place_dollar_amount_order` always carries
a positive calculated quantity (the zero-quantity guard raises first). -/
theorem place_dollar_amount_order_pos (ask last : Option ℚ) (damt : ℚ)
    (resp : Option BrokerResponse) (oid : Option String) (cq : ℤ)
    (hok : place_dollar_amount_order ask last damt resp = Except.ok (oid, cq)) :
    0 < cq := by
  by_cases h1 : damt ≤ 0
  · simp [place_dollar_amount_order, h1] at hok
  · cases hq : get_quote ask last with
    | error e => simp [place_dollar_amount_order, h1, hq] at hok
    | ok P =>
      by_cases h2 : ⌊damt / P⌋ ≤ (0 : ℤ)
      · simp [place_dollar_amount_order, h1, hq, h2] at hok
      · cases hpo : place_order_internal ⌊damt / P⌋ resp with
        | error e => simp [place_dollar_amount_order, h1, hq, h2, hpo] at hok
        | ok o =>
          simp [place_dollar_amount_order, h1, hq, h2, hpo] at hok
          rw [← hok.2]
          omega

/-- C10: `execute_schwab_trade` never lets an exception escape: every run
returns either `(None, 0)` — which it does whenever the underlying order
placement raises (invalid price, zero quantity, broker or transport error) or
the instruction is not BUY — or, on a non-raising BUY run, the order id
returned by the placement together with the positive calculated quantity. -/
theorem execute_schwab_trade_error_contract (ask last : Option ℚ) (damt : ℚ)
    (instr : String) (resp : Option BrokerResponse) :
    (execute_schwab_trade ask last damt instr resp = (none, 0)
      ∨ ∃ oid cq,
          place_dollar_amount_order ask last damt resp = Except.ok (oid, cq)
          ∧ pyUpper instr = "BUY"
          ∧ execute_schwab_trade ask last damt instr resp = (oid, cq)
          ∧ 0 < cq) ∧
    (∀ e, place_dollar_amount_order ask last damt resp = Except.error e →
      execute_schwab_trade ask last damt instr resp = (none, 0)) ∧
    (pyUpper instr ≠ "BUY" →
      execute_schwab_trade ask last damt instr resp = (none, 0)) := by
  refine ⟨?_, ?_, ?_⟩
  · by_cases hb : pyUpper instr = "BUY"
    · cases hres : place_dollar_amount_order ask last damt resp with
      | error e => left; simp [execute_schwab_trade, hb, hres]
      | ok pair =>
        obtain ⟨oid, cq⟩ := pair
        right
        refine ⟨oid, cq, ?_, ?_, ?_, ?_⟩
        · rfl
        · exact hb
        · simp [execute_schwab_trade, hb, hres]
        · exact place_dollar_amount_order_pos ask last damt resp oid cq hres
    · left; simp [execute_schwab_trade, hb]
  · intro e he
    by_cases hb : pyUpper instr = "BUY"
    · simp [execute_schwab_trade, hb, he]
    · simp [execute_schwab_trade, hb]
  · intro hb
    simp [execute_schwab_trade, hb]

/-- C10 witness: a non-BUY instruction makes `execute_schwab_trade` return
`(None, 0)` instead of raising `NotImplementedError` to its caller. -/
theorem execute_schwab_trade_error_contract_witness :
    execute_schwab_trade (some 1) none 1000 "SELL" none = (none, 0) :=
  (execute_schwab_trade_error_contract (some 1) none 1000 "SELL" none).2.2
    (by decide)

/-- Helper: `get_quote` never returns a non-positive price. -/
theorem get_quote_ok_pos (ask last : Option ℚ) (P : ℚ)
    (h : get_quote ask last = Except.ok P) : 0 < P := by
  unfold get_quote at h
  split at h
  · rename_i p heq
    split at h
    · rename_i hp
      simp only [Except.ok.injEq] at h
      exact h ▸ hp
    · simp at h
  · simp at h

/-- Helper: when the quote succeeds, the notional is positive and the floored
quotient is positive, the submitted order leg carries exactly that floored
quantity. -/
theorem sizer_submits_floor (N : ℚ) (ask last : Option ℚ)
    (symbol instr : String) (P : ℚ)
    (hq : get_quote ask last = Except.ok P) (hN : 0 < N) (hfl : 0 < ⌊N / P⌋) :
    placeDollarAmountOrderSubmits ask last N symbol instr
      = some ⟨pyUpper instr, ⌊N / P⌋, pyUpper symbol⟩ := by
  have hN' : ¬ N ≤ 0 := not_le.mpr hN
  have hfl' : ¬ ⌊N / P⌋ ≤ (0 : ℤ) := not_le.mpr hfl
  simp [placeDollarAmountOrderSubmits, hN', hq, hfl', placeOrderInternalSubmits]

/-- Helper: with no positive ask price and no positive last price,
`place_dollar_amount_order` fails. -/
theorem sizer_nonpos_price_fails (N : ℚ) (ask last : Option ℚ)
    (resp : Option BrokerResponse)
    (ha : ∀ a ∈ ask, a ≤ 0) (hl : ∀ l ∈ last, l ≤ 0) :
    ∃ e, place_dollar_amount_order ask last N resp = Except.error e := by
  have hq : ∃ e, get_quote ask last = Except.error e := by
    have hres : ∀ p, resolvePrice ask last = some p → p ≤ 0 := by
      intro p hp
      cases ask with
      | none => exact hl p hp
      | some a =>
        by_cases ha0 : a = 0
        · simp [resolvePrice, ha0] at hp
          exact hl p hp
        · simp [resolvePrice, ha0] at hp
          exact hp ▸ ha a rfl
    unfold get_quote
    cases hp : resolvePrice ask last with
    | none => exact ⟨"Could not retrieve a valid price (ask or last)", rfl⟩
    | some p =>
      have hple := hres p hp
      exact ⟨"Could not retrieve a valid price (ask or last)",
        by simp [not_lt.mpr hple]⟩
  by_cases hd : N ≤ 0
  · exact ⟨"Dollar amount must be positive.", by simp [place_dollar_amount_order, hd]⟩
  · obtain ⟨e, he⟩ := hq
    exact ⟨e, by simp [place_dollar_amount_order, hd, he]⟩

/-- Helper: a non-positive floored quantity makes the sizer fail before any
submission. -/
theorem sizer_floor_nonpos_fails (N : ℚ) (ask last : Option ℚ)
    (resp : Option BrokerResponse) (symbol instr : String) (P : ℚ)
    (hq : get_quote ask last = Except.ok P) (hfl : ⌊N / P⌋ ≤ 0) :
    (∃ e, place_dollar_amount_order ask last N resp = Except.error e)
    ∧ placeDollarAmountOrderSubmits ask last N symbol instr = none := by
  constructor
  · by_cases hd : N ≤ 0
    · exact ⟨"Dollar amount must be positive.",
        by simp [place_dollar_amount_order, hd]⟩
    · exact ⟨"Calculated quantity is zero or less. Order not placed.",
        by simp [place_dollar_amount_order, hd, hq, hfl]⟩
  · by_cases hd : N ≤ 0
    · simp [placeDollarAmountOrderSubmits, hd]
    · simp [placeDollarAmountOrderSubmits, hd, hq, hfl]

/-- Helper: a successful `place_dollar_amount_order` returns exactly the
floored quotient of notional by the fetched price, and it is positive. -/
theorem sizer_ok_quantity (N : ℚ) (ask last : Option ℚ)
    (resp : Option BrokerResponse) (P : ℚ) (oid : Option String) (cq : ℤ)
    (hq : get_quote ask last = Except.ok P)
    (hok : place_dollar_amount_order ask last N resp = Except.ok (oid, cq)) :
    cq = ⌊N / P⌋ ∧ 0 < cq := by
  by_cases hd : N ≤ 0
  · simp [place_dollar_amount_order, hd] at hok
  · by_cases hfl : ⌊N / P⌋ ≤ (0 : ℤ)
    · simp [place_dollar_amount_order, hd, hq, hfl] at hok
    · cases hpo : place_order_internal ⌊N / P⌋ resp with
      | error e => simp [place_dollar_amount_order, hd, hq, hfl, hpo] at hok
      | ok o =>
        simp [place_dollar_amount_order, hd, hq, hfl, hpo] at hok
        exact ⟨hok.2.symm, hok.2 ▸ (by omega)⟩

/-- C5: The Order Sizer's contract: a fetched price is always positive; for a
positive notional and fetched price the submitted quantity is exactly
`floor(N / P)` (when positive); when neither the ask nor the last price is
positive the sizer fails; when `floor(N / P) <= 0` it fails explicitly and
submits nothing; and any non-failing run both equals `floor(N / P)` and is
positive. -/
theorem order_sizer_contract (N : ℚ) (ask last : Option ℚ)
    (resp : Option BrokerResponse) (symbol instr : String) :
    (∀ P, get_quote ask last = Except.ok P → 0 < P) ∧
    (∀ P, get_quote ask last = Except.ok P → 0 < N → 0 < ⌊N / P⌋ →
      placeDollarAmountOrderSubmits ask last N symbol instr
        = some ⟨pyUpper instr, ⌊N / P⌋, pyUpper symbol⟩) ∧
    ((∀ a ∈ ask, a ≤ 0) → (∀ l ∈ last, l ≤ 0) →
      ∃ e, place_dollar_amount_order ask last N resp = Except.error e) ∧
    (∀ P, get_quote ask last = Except.ok P → ⌊N / P⌋ ≤ 0 →
      (∃ e, place_dollar_amount_order ask last N resp = Except.error e)
      ∧ placeDollarAmountOrderSubmits ask last N symbol instr = none) ∧
    (∀ P oid cq, get_quote ask last = Except.ok P →
      place_dollar_amount_order ask last N resp = Except.ok (oid, cq) →
      cq = ⌊N / P⌋ ∧ 0 < cq) :=
  ⟨fun P h => get_quote_ok_pos ask last P h,
   fun P hq hN hfl => sizer_submits_floor N ask last symbol instr P hq hN hfl,
   fun ha hl => sizer_nonpos_price_fails N ask last resp ha hl,
   fun P hq hfl => sizer_floor_nonpos_fails N ask last resp symbol instr P hq hfl,
   fun P oid cq hq hok => sizer_ok_quantity N ask last resp P oid cq hq hok⟩

/-- Helper: concrete quote evaluation for the specification scenario price
333.33. -/
theorem get_quote_scenario_eval :
    get_quote (some (33333/100 : ℚ)) none = Except.ok (33333/100) := by
  norm_num [get_quote, resolvePrice]

/-- Helper: concrete floor evaluation for the specification scenario
`floor(1000 / 333.33) = 3`. -/
theorem floor_scenario_eval : ⌊(1000 : ℚ) / (33333/100 : ℚ)⌋ = 3 := by
  rw [Int.floor_eq_iff]
  norm_num

/-- Helper: the scenario notional 1000 is positive. -/
theorem thousand_pos : (0 : ℚ) < 1000 := by norm_num

/-- C5 witness: at notional 1000 and price 333.33 the fetched price is
positive and the submitted BUY order has quantity 3. -/
theorem order_sizer_contract_witness :
    (0 : ℚ) < 33333/100
    ∧ placeDollarAmountOrderSubmits (some (33333/100 : ℚ)) none 1000 "SPY" "BUY"
        = some ⟨"BUY", 3, "SPY"⟩ := by
  have h := order_sizer_contract 1000 (some (33333/100)) none none "SPY" "BUY"
  refine ⟨h.1 _ get_quote_scenario_eval, ?_⟩
  have h2 := h.2.1 (33333/100) get_quote_scenario_eval thousand_pos
    (by rw [floor_scenario_eval]; decide)
  rw [floor_scenario_eval] at h2
  rw [h2]
  decide

/-- C1: A content item whose fingerprint is already in the dedup store — the
in-memory set, or a set reloaded from the persisted file after a restart — is
never emitted downstream and never produces an Execution Engine call in that
cycle; only an item absent from the set (and non-empty) is passed onward. -/
theorem dedup_prevents_resubmission (seen : Finset String) (t f : String)
    (ready : Bool) :
    (t ∈ seen →
      (scraperCycle seen (some t)).2.1 = none
      ∧ PipelineEvent.engineCall ∉ fullCycleEvents seen (some t) f ready) ∧
    (∀ u, (scraperCycle seen (some t)).2.1 = some u →
      u = t ∧ t ∉ seen ∧ t ≠ "") ∧
    (∀ S : Finset String, t ∈ S →
      PipelineEvent.engineCall ∉
        fullCycleEvents (load_seen_tweets (some (save_seen_tweets S)))
          (some t) f ready) := by
  have hmain : ∀ (s : Finset String), t ∈ s →
      (scraperCycle s (some t)).2.1 = none
      ∧ PipelineEvent.engineCall ∉ fullCycleEvents s (some t) f ready := by
    intro s hs
    have hcond : ¬ (t ≠ "" ∧ t ∉ s) := by simp [hs]
    constructor
    · simp [scraperCycle, hcond]
    · simp [fullCycleEvents, scraperCycle, hcond, serviceEvents]
  refine ⟨hmain seen, ?_, ?_⟩
  · intro u hu
    by_cases hcond : t ≠ "" ∧ t ∉ seen
    · simp [scraperCycle, hcond] at hu
      exact ⟨hu.symm, hcond.2, hcond.1⟩
    · simp [scraperCycle, hcond] at hu
  · intro S hS
    have hload : load_seen_tweets (some (save_seen_tweets S)) = S := by
      simp [load_seen_tweets, save_seen_tweets]
    rw [hload]
    exact (hmain S hS).2

/-- C1 witness: a tweet already committed to the store produces no Execution
Engine call even with the classifier actionable and Schwab available. -/
theorem dedup_prevents_resubmission_witness :
    ("tariffs are coming" ∈ ({"tariffs are coming"} : Finset String))
    ∧ PipelineEvent.engineCall ∉
        fullCycleEvents {"tariffs are coming"} (some "tariffs are coming")
          "More Firm" true :=
  ⟨by decide,
   ((dedup_prevents_resubmission {"tariffs are coming"} "tariffs are coming"
      "More Firm" true).1 (by decide)).2⟩

/-- C2 (code evaluation): on a first run with an empty store and a new tweet,
the cycle's event trace commits the dedup store (in-memory add plus file
rewrite) immediately after emitting the item — before the Classifier, the
Execution Engine, and the Notifier run — not after the cycle's terminal
outcome. -/
theorem dedup_commit_precedes_terminal_outcome :
    fullCycleEvents ∅ (some "Huge tariffs") "More Firm" true
      = [PipelineEvent.scrape, PipelineEvent.emit, PipelineEvent.commitStore,
         PipelineEvent.classify, PipelineEvent.engineCall, PipelineEvent.notify]
    ∧ List.indexOf PipelineEvent.commitStore
        (fullCycleEvents ∅ (some "Huge tariffs") "More Firm" true)
      < List.indexOf PipelineEvent.classify
        (fullCycleEvents ∅ (some "Huge tariffs") "More Firm" true)
    ∧ List.indexOf PipelineEvent.commitStore
        (fullCycleEvents ∅ (some "Huge tariffs") "More Firm" true)
      < List.indexOf PipelineEvent.notify
        (fullCycleEvents ∅ (some "Huge tariffs") "More Firm" true) := by
  decide

/-- C6: The Decision Policy is a pure function of the Signal and the mapping
table: it returns the table's ticker and action exactly when the direction is
Increased or Decreased and the subject (not the `N/A` no-subject sentinel)
has a complete table entry; in every other case it returns the non-actionable
`(N/A, N/A)` result together with a non-empty explanatory string.  Includes
the specification scenario with mapping China to (XYZ, BUY). -/
theorem decision_policy_actionability (mapping : List (String × TableValue))
    (subject rationale : String) (d : Direction) :
    ((d = Direction.Increased ∨ d = Direction.Decreased) → subject ≠ "N/A" →
      ∀ tick act,
        mapping.lookup subject
          = some (TableValue.entry (some tick) (some act)) →
        (analyze_tweet_reasoning mapping
          ⟨subject, d.toSentimentString, rationale⟩).ticker = tick
        ∧ (analyze_tweet_reasoning mapping
            ⟨subject, d.toSentimentString, rationale⟩).action = act
        ∧ (analyze_tweet_reasoning mapping
            ⟨subject, d.toSentimentString, rationale⟩).confidence = "Medium") ∧
    ((d = Direction.Unchanged ∨ d = Direction.Unclear) →
      (analyze_tweet_reasoning mapping
        ⟨subject, d.toSentimentString, rationale⟩).ticker = "N/A"
      ∧ (analyze_tweet_reasoning mapping
          ⟨subject, d.toSentimentString, rationale⟩).action = "N/A"
      ∧ (analyze_tweet_reasoning mapping
          ⟨subject, d.toSentimentString, rationale⟩).explanation ≠ "") ∧
    ((∀ tick act,
        mapping.lookup subject
          ≠ some (TableValue.entry (some tick) (some act))) →
      (analyze_tweet_reasoning mapping
        ⟨subject, d.toSentimentString, rationale⟩).ticker = "N/A"
      ∧ (analyze_tweet_reasoning mapping
          ⟨subject, d.toSentimentString, rationale⟩).action = "N/A"
      ∧ (analyze_tweet_reasoning mapping
          ⟨subject, d.toSentimentString, rationale⟩).explanation ≠ "") ∧
    ((analyze_tweet_reasoning
        [("China", TableValue.entry (some "XYZ") (some "BUY"))]
        ⟨"China", "Increased", rationale⟩).ticker = "XYZ"
      ∧ (analyze_tweet_reasoning
          [("China", TableValue.entry (some "XYZ") (some "BUY"))]
          ⟨"China", "Increased", rationale⟩).action = "BUY") ∧
    ((analyze_tweet_reasoning
        [("China", TableValue.entry (some "XYZ") (some "BUY"))]
        ⟨"China", "Unchanged", rationale⟩).ticker = "N/A"
      ∧ (analyze_tweet_reasoning
          [("China", TableValue.entry (some "XYZ") (some "BUY"))]
          ⟨"China", "Unchanged", rationale⟩).action = "N/A") := by
  refine ⟨?_, ?_, ?_, ?_, ?_⟩
  · intro hd hsub tick act hlook
    rcases hd with rfl | rfl <;>
      exact ⟨by simp [analyze_tweet_reasoning, Direction.toSentimentString, hsub, hlook],
        by simp [analyze_tweet_reasoning, Direction.toSentimentString, hsub, hlook],
        by simp [analyze_tweet_reasoning, Direction.toSentimentString, hsub, hlook]⟩
  · intro hd
    rcases hd with rfl | rfl <;>
      refine ⟨?_, ?_, ?_⟩ <;>
      simp [analyze_tweet_reasoning, Direction.toSentimentString] <;>
      split <;> simp
  · intro hno
    cases hlook : mapping.lookup subject with
    | none =>
      refine ⟨?_, ?_, ?_⟩ <;> simp only [analyze_tweet_reasoning, hlook] <;>
        (split_ifs <;> simp)
    | some v =>
      cases v with
      | placeholder =>
        refine ⟨?_, ?_, ?_⟩ <;> simp only [analyze_tweet_reasoning, hlook] <;>
          (split_ifs <;> simp)
      | entry tt aa =>
        cases tt with
        | none =>
          refine ⟨?_, ?_, ?_⟩ <;> simp only [analyze_tweet_reasoning, hlook] <;>
            (split_ifs <;> simp)
        | some tick =>
          cases aa with
          | none =>
            refine ⟨?_, ?_, ?_⟩ <;> simp only [analyze_tweet_reasoning, hlook] <;>
              (split_ifs <;> simp)
          | some act => exact absurd hlook (hno tick act)
  · exact ⟨by simp [analyze_tweet_reasoning, List.lookup],
      by simp [analyze_tweet_reasoning, List.lookup]⟩
  · exact ⟨by simp [analyze_tweet_reasoning, List.lookup],
      by simp [analyze_tweet_reasoning, List.lookup]⟩

/-- C6 witness: with mapping China to (XYZ, BUY), a China/Increased Signal
yields the actionable Decision (XYZ, BUY). -/
theorem decision_policy_actionability_witness :
    (analyze_tweet_reasoning [("China", TableValue.entry (some "XYZ") (some "BUY"))]
      ⟨"China", "Increased", "tweet sounded aggressive"⟩).ticker = "XYZ"
    ∧ (analyze_tweet_reasoning [("China", TableValue.entry (some "XYZ") (some "BUY"))]
        ⟨"China", "Increased", "tweet sounded aggressive"⟩).action = "BUY" := by
  have h := (decision_policy_actionability
    [("China", TableValue.entry (some "XYZ") (some "BUY"))]
    "China" "tweet sounded aggressive" Direction.Increased).1
    (Or.inl rfl) (by decide) "XYZ" "BUY" (by decide)
  exact ⟨h.1, h.2.1⟩

/-- C7 counterexample: the response subject `Atlantis`, absent from the
whitelist containing only `China`, is normalized to the sentinel `N/A` — not
to the string `Unknown` the claim names. -/
theorem subject_whitelist_counterexample :
    validateCountryReference {"China"} (some ⟨some "Atlantis", none, none⟩)
      = some ⟨some "N/A", none, none⟩
    ∧ validateCountryReference {"China"} (some ⟨some "Atlantis", none, none⟩)
      ≠ some ⟨some "Unknown", none, none⟩ := by
  decide

/-- C7 (amended): a classifier response naming a subject outside the
configured whitelist (other than the `N/A` sentinel itself) has its subject
normalized to `N/A` — the same sentinel used for "no subject" — before the
response is returned, rather than being passed through verbatim; a
whitelisted subject passes through unchanged. -/
theorem subject_whitelist_normalizes (valid_countries : Finset String)
    (p : ParsedSentiment) (c : String) :
    (p.country_reference = some c → c ≠ "N/A" → c ∉ valid_countries →
      validateCountryReference valid_countries (some p)
        = some { p with country_reference := some "N/A" }) ∧
    (p.country_reference = some c → c ∈ valid_countries →
      validateCountryReference valid_countries (some p) = some p) := by
  constructor
  · intro hc hna hnotin
    simp [validateCountryReference, hc, hna, hnotin]
  · intro hc hin
    have : ¬ (c ≠ "N/A" ∧ c ∉ valid_countries) := by simp [hin]
    simp [validateCountryReference, hc, this]

/-- C7 witness: the out-of-whitelist subject `Atlantis` is rewritten to
`N/A`. -/
theorem subject_whitelist_normalizes_witness :
    validateCountryReference {"China"} (some ⟨some "Atlantis", some "Increased", some "r"⟩)
      = some ⟨some "N/A", some "Increased", some "r"⟩ :=
  (subject_whitelist_normalizes {"China"}
      ⟨some "Atlantis", some "Increased", some "r"⟩ "Atlantis").1
    rfl (by decide) (by decide)

/-- C8: The LLM response parser never raises: `None` input resolves to
`None`; a directly parsable response is returned from the first attempt; when
the direct parse fails the fences are stripped and the parse retried, and the
result is exactly that second attempt; when the stripped text is empty, or
the second attempt also fails, the parser resolves to `None` (the "no
signal" outcome). -/
theorem llm_parse_soft_failure {α : Type} (jsonLoads : String → Option α)
    (text : String) :
    parse_llm_json_response jsonLoads none = none ∧
    (∀ v, jsonLoads text = some v →
      parse_llm_json_response jsonLoads (some text) = some v) ∧
    (jsonLoads text = none → stripMarkdownFences text ≠ "" →
      parse_llm_json_response jsonLoads (some text)
        = jsonLoads (stripMarkdownFences text)) ∧
    (jsonLoads text = none → stripMarkdownFences text = "" →
      parse_llm_json_response jsonLoads (some text) = none) ∧
    (jsonLoads text = none → jsonLoads (stripMarkdownFences text) = none →
      parse_llm_json_response jsonLoads (some text) = none) := by
  refine ⟨rfl, ?_, ?_, ?_, ?_⟩
  · intro v hv
    simp [parse_llm_json_response, hv]
  · intro hfail hne
    simp [parse_llm_json_response, hfail, hne]
  · intro hfail hemp
    simp [parse_llm_json_response, hfail, hemp]
  · intro hfail hfail2
    by_cases hemp : stripMarkdownFences text = ""
    · simp [parse_llm_json_response, hfail, hemp]
    · simp [parse_llm_json_response, hfail, hemp, hfail2]

/-- C8 witness: a response wrapped in a ```json fence that fails the direct
parse is stripped and parsed successfully on the second attempt. -/
theorem llm_parse_soft_failure_witness :
    parse_llm_json_response
        (fun s => if s = "42" then some (42 : Nat) else none)
        (some "```json\n42\n```")
      = some 42 :=
  Eq.trans
    ((llm_parse_soft_failure
        (fun s => if s = "42" then some (42 : Nat) else none)
        "```json\n42\n```").2.2.1 (by decide) (by decide))
    (by decide)

end TrumpTrader
